import Mathlib

/-
Verification of the IDMappingService validation utilities and service layer.

The definitions in the first part embed `src/jgikbase/idmapping/util/util.py`
(`not_none`, `check_string`) faithfully: Python exceptions become an
`Except` error value, Python truthiness of arguments is modelled explicitly,
and the regex character class `[^...]` compiled by `check_string` is modelled
by `charClassMatch` (character classes of the shape used by this repository:
literal characters and `a-z` ranges).  The regex cache of `util.py` is a
performance device with no semantic effect and is not modelled.

The second part models the service layer (credential parsing, error
taxonomy, error-to-response translation, route handlers), whose Python
sources are not in the repository snapshot; each such definition carries a
doc comment starting with "Modelled from the spec:".
-/

namespace IDMapping

/-- Errors raised by `util.py`: `MissingParameterError(name)` and
`IllegalParameterError(message)` from `jgikbase.idmapping.core.errors`. -/
inductive UtilError where
  | missingParameter (name : String)
  | illegalParameter (message : String)
deriving DecidableEq, Repr

/-- Python `str` whitespace test restricted to the ASCII whitespace
characters (space, tab, newline, carriage return, vertical tab, form feed),
as used by `str.strip()` and `str.split()`. -/
def pyIsSpace (c : Char) : Bool :=
  c = ' ' || c = '\t' || c = '\n' || c = '\r' || c = '\x0b' || c = '\x0c'

/-- Python `string.strip()`: remove leading and trailing whitespace. -/
def pyStrip (s : String) : String :=
  String.mk (((s.toList.dropWhile pyIsSpace).reverse.dropWhile pyIsSpace).reverse)

/-- Helper for `pySplit`: walk the characters, accumulating the current
word (reversed); whitespace ends a word, empty words are dropped. -/
def pySplitAux : List Char → List Char → List String
  | [], acc => if acc.isEmpty then [] else [String.mk acc.reverse]
  | ch :: rest, acc =>
    if pyIsSpace ch then
      if acc.isEmpty then pySplitAux rest []
      else String.mk acc.reverse :: pySplitAux rest []
    else pySplitAux rest (ch :: acc)

/-- Python `string.split()` with no argument: split on runs of whitespace,
discarding empty pieces. -/
def pySplit (s : String) : List String := pySplitAux s.toList []

/-- Membership of a character in a regex character class such as
`a-zA-Z0-9_`: ranges `x-y` match any character between `x` and `y`,
other characters match literally.  `check_string` searches with the
negated class `[^...]`, i.e. for a character NOT matched here. -/
def charClassMatch : List Char → Char → Bool
  | a :: '-' :: b :: rest, c => (a ≤ c && c ≤ b) || charClassMatch rest c
  | a :: rest, c => (a = c) || charClassMatch rest c
  | [], _ => false

/-- Embedding of `util.not_none(obj, name)`: raises
`MissingParameterError(name)` when `obj` is falsy, i.e. `None` or the
empty string.  (Note: a whitespace-only string is truthy in Python, so it
passes this check, contrary to the function's own docstring.) -/
def not_none (obj : Option String) (name : String) : Except UtilError Unit :=
  match obj with
  | none => .error (.missingParameter name)
  | some s => if s = "" then .error (.missingParameter name) else .ok ()

/-- Embedding of the final `legal_characters` phase of
`util.check_string`: when a non-empty (truthy) character class is given,
search the string for the first character outside the class and raise
`IllegalParameterError` citing it. -/
def checkLegal (s name : String) (legal_characters : Option String) :
    Except UtilError Unit :=
  match legal_characters with
  | none => .ok ()
  | some lc =>
    if lc = "" then .ok ()
    else
      match s.toList.find? (fun c => ! charClassMatch lc.toList c) with
      | some c =>
          .error (.illegalParameter
            ("Illegal character in " ++ name ++ " " ++ s ++ ": " ++ String.mk [c]))
      | none => .ok ()

/-- Embedding of `util.check_string(string, name, legal_characters,
max_len)`: `not_none`, then the whitespace-only check, then the
`max_len` check (guarded by Python truthiness of `max_len`, so `None`
and `0` both skip it), then the legal-characters scan. -/
def check_string (string : Option String) (name : String)
    (legal_characters : Option String) (max_len : Option Int) :
    Except UtilError Unit :=
  match not_none string name with
  | .error e => .error e
  | .ok _ =>
    let s := string.getD ""
    if pyStrip s = "" then
      .error (.missingParameter name)
    else
      match max_len with
      | some m =>
        if m ≠ 0 ∧ (s.length : Int) > m then
          .error (.illegalParameter
            (name ++ " " ++ s ++ " exceeds maximum length of " ++ toString m))
        else checkLegal s name legal_characters
      | none => checkLegal s name legal_characters

/-- The string passes the (truthiness-guarded) maximum-length check:
no limit, a zero (falsy) limit, or length within the limit. -/
def lengthOKB (ml : Option Int) (s : String) : Bool :=
  match ml with
  | none => true
  | some m => m = 0 || (s.length : Int) ≤ m

/-- The string passes the legal-characters check: no class given, an
empty (falsy) class, or every character matched by the class. -/
def onlyLegal (lc : Option String) (s : String) : Bool :=
  match lc with
  | none => true
  | some l => l = "" || s.toList.all (fun c => charClassMatch l.toList c)

/-- Modelled from the spec: the closed error taxonomy of
`jgikbase.idmapping.core.errors` (not in the repository snapshot).  Kinds
per spec section 4.4; the general missing-parameter kind is in the
taxonomy but its exact code is not pinned by the spec, only the
no-auth-token variant (10010/401) is. -/
inductive ErrorKind where
  | noAuthToken
  | invalidToken
  | unauthorized
  | missingParameter
  | illegalParameter
  | noSuchNamespace
deriving DecidableEq, Repr

/-- Modelled from the spec: an error raised during request handling is
either a classified taxonomy error carrying an optional detail string, or
an unclassified fault carrying only its own message. -/
inductive ServiceError where
  | classified (kind : ErrorKind) (detail : Option String)
  | unclassified (message : String)
deriving DecidableEq, Repr

/-- Modelled from the spec: stable numeric application code per error
kind (spec section 4.4 table). -/
def appcodeOf : ErrorKind → Nat
  | .noAuthToken => 10010
  | .invalidToken => 10020
  | .unauthorized => 20000
  | .missingParameter => 30000
  | .illegalParameter => 30001
  | .noSuchNamespace => 50010

/-- Modelled from the spec: the caller-facing error-kind string per
error kind (observed in the tests of `mapper_service_test.py`). -/
def apperrorOf : ErrorKind → String
  | .noAuthToken => "No authentication token"
  | .invalidToken => "Invalid token"
  | .unauthorized => "Unauthorized"
  | .missingParameter => "Missing input parameter"
  | .illegalParameter => "Illegal input parameter"
  | .noSuchNamespace => "No such namespace"

/-- Modelled from the spec: numeric HTTP status per error kind. -/
def httpcodeOf : ErrorKind → Nat
  | .noAuthToken => 401
  | .invalidToken => 401
  | .unauthorized => 403
  | .missingParameter => 400
  | .illegalParameter => 400
  | .noSuchNamespace => 404

/-- Modelled from the spec: HTTP status phrase per error kind. -/
def httpstatusOf : ErrorKind → String
  | .noAuthToken => "Unauthorized"
  | .invalidToken => "Unauthorized"
  | .unauthorized => "Forbidden"
  | .missingParameter => "Bad Request"
  | .illegalParameter => "Bad Request"
  | .noSuchNamespace => "Not Found"

/-- The structured error payload of the wire contract:
`{httpcode, httpstatus, appcode, apperror, message}`, where `appcode`
and `apperror` are absent for unclassified faults. -/
structure ErrorPayload where
  httpcode : Nat
  httpstatus : String
  appcode : Option Nat
  apperror : Option String
  message : String
deriving DecidableEq, Repr

/-- Render the optional detail suffix of an error message. -/
def optDetail : Option String → String
  | none => ""
  | some d => ": " ++ d

/-- Modelled from the spec: the error-to-response translator of the
service module (spec section 4.4): a classified error renders as
appcode/apperror/fixed status with message
appcode-space-apperror-optional-detail; an unclassified fault renders as
500 with no appcode or apperror and the fault's own message verbatim. -/
def translate : ServiceError → ErrorPayload
  | .classified k d =>
    { httpcode := httpcodeOf k
      httpstatus := httpstatusOf k
      appcode := some (appcodeOf k)
      apperror := some (apperrorOf k)
      message := toString (appcodeOf k) ++ " " ++ apperrorOf k ++ optDetail d }
  | .unclassified msg =>
    { httpcode := 500
      httpstatus := "Internal Server Error"
      appcode := none
      apperror := none
      message := msg }

/-- Lift a `util.py` error into the service taxonomy:
`MissingParameterError(name)` and `IllegalParameterError(message)` are the
taxonomy's missing/illegal parameter kinds with the text as detail. -/
def liftUtil : UtilError → ServiceError
  | .missingParameter n => .classified .missingParameter (some n)
  | .illegalParameter m => .classified .illegalParameter (some m)

/-- Lift a `util.py` check result into the service taxonomy. -/
def liftE (r : Except UtilError Unit) : Except ServiceError Unit :=
  match r with
  | .error e => .error (liftUtil e)
  | .ok _ => .ok ()

/-- Modelled from the spec: AuthsourceID construction validation
(spec section 3: legal character set and maximum length enforced at
construction; the concrete class and limit are those of the real
`user.py`, not in the snapshot). -/
def checkAuthsourceID (a : String) : Except UtilError Unit :=
  check_string (some a) "authsource id" (some "a-z") (some 20)

/-- Modelled from the spec: Token construction validation (opaque
non-blank string, no character-set restriction). -/
def checkToken (t : String) : Except UtilError Unit :=
  check_string (some t) "token" none none

/-- Modelled from the spec: NamespaceID construction validation
(spec section 3: its own legal-character set, path-safe; the ampersand
is illegal per the observed test, and the error names "namespace id"). -/
def checkNamespaceID (nsid : String) : Except UtilError Unit :=
  check_string (some nsid) "namespace id" (some "a-zA-Z0-9_") (some 256)

/-- Modelled from the spec: the credential parser of the service module
(spec section 4.2).  An absent header is anonymous unless a credential is
required, in which case the no-auth-token error is raised; a present
header must split into exactly two whitespace-separated tokens, else the
illegal-parameter error "Expected authsource and token in header." is
raised; the two tokens are then validated as AuthsourceID and Token. -/
def parse_credential (required : Bool) (auth : Option String) :
    Except ServiceError (Option (String × String)) :=
  match auth with
  | none =>
    if required then .error (.classified .noAuthToken none) else .ok none
  | some h =>
    match pySplit h with
    | [a, t] =>
      match liftE (checkAuthsourceID a) with
      | .error e => .error e
      | .ok _ =>
        match liftE (checkToken t) with
        | .error e => .error e
        | .ok _ => .ok (some (a, t))
    | _ =>
      .error (.classified .illegalParameter
        (some "Expected authsource and token in header."))

/-- The namespace aggregate: id, public-mappability flag, and the
member users as (authsource, username) pairs. -/
structure NamespaceData where
  id : String
  publicly_mappable : Bool
  users : List (String × String)
deriving DecidableEq, Repr

/-- Strict lexicographic comparison of character lists: Python string
comparison in the code-point order. -/
def listCharLt : List Char → List Char → Bool
  | [], [] => false
  | [], _ :: _ => true
  | _ :: _, [] => false
  | a :: as, b :: bs => a < b || (a = b && listCharLt as bs)

/-- Python string less-than (lexicographic on the characters). -/
def strLt (a b : String) : Bool := listCharLt a.toList b.toList

/-- The User total ordering of the spec: authsource first, then
username (Python tuple comparison of the two strings, non-strict). -/
def userLeB (u v : String × String) : Bool :=
  strLt u.1 v.1 || (u.1 = v.1 && (strLt u.2 v.2 || u.2 = v.2))

/-- Render a user as the wire string authsource-slash-username. -/
def renderUser (u : String × String) : String := u.1 ++ "/" ++ u.2

/-- Insert an element into a list sorted by `le`. -/
def insertSorted (le : α → α → Bool) (x : α) : List α → List α
  | [] => [x]
  | y :: ys => if le x y then x :: y :: ys else y :: insertSorted le x ys

/-- Insertion sort by `le`. -/
def sortBy (le : α → α → Bool) : List α → List α
  | [] => []
  | x :: xs => insertSorted le x (sortBy le xs)

/-- Modelled from the spec: the users list of the getNamespace response
body, the member set sorted by the User total ordering and rendered as
authsource-slash-username strings. -/
def renderUsers (users : List (String × String)) : List String :=
  (sortBy userLeB users).map renderUser

/-- A response body: empty (204), the namespace JSON document, or an
error document. -/
inductive Body where
  | empty
  | nsJson (ns : String) (publicly_mappable : Bool) (users : List String)
  | error (payload : ErrorPayload)
deriving DecidableEq, Repr

/-- An HTTP response: status code and body. -/
structure Response where
  status : Nat
  body : Body
deriving DecidableEq, Repr

/-- Build the error response for a raised service error via the
translator. -/
def errorResponse (e : ServiceError) : Response :=
  { status := (translate e).httpcode, body := .error (translate e) }

/-- Modelled from the spec: the GET /api/v1/namespace/{id} handler.
Parse the (optional) credential, validate the namespace id, call
IDMapper.get_namespace, and render the namespace document; any raised
error goes through the translator. -/
def get_namespace_handler
    (mget : String → Option (String × String) → Except ServiceError NamespaceData)
    (auth : Option String) (nsid : String) : Response :=
  match parse_credential false auth with
  | .error e => errorResponse e
  | .ok cred =>
    match liftE (checkNamespaceID nsid) with
    | .error e => errorResponse e
    | .ok _ =>
      match mget nsid cred with
      | .error e => errorResponse e
      | .ok ns => { status := 200
                    body := .nsJson ns.id ns.publicly_mappable (renderUsers ns.users) }

/-- Modelled from the spec: the argument tuple (authsource, token,
namespace id) that the create handler passes to
IDMapper.create_namespace, or the error raised while building it.  A
credential is required here, so an absent header raises the
no-auth-token error. -/
def create_namespace_call (auth : Option String) (nsid : String) :
    Except ServiceError (String × String × String) :=
  match parse_credential true auth with
  | .error e => .error e
  | .ok none => .error (.classified .noAuthToken none)
  | .ok (some (a, t)) =>
    match liftE (checkNamespaceID nsid) with
    | .error e => .error e
    | .ok _ => .ok (a, t, nsid)

/-- Modelled from the spec: the PUT/POST /api/v1/namespace/{id} handler.
Returns the response together with the list of argument tuples passed to
IDMapper.create_namespace (mirroring the call recording of the tests).
On success the response is 204 with an empty body. -/
def create_namespace_handler
    (mcreate : String × String × String → Except ServiceError Unit)
    (auth : Option String) (nsid : String) :
    Response × List (String × String × String) :=
  match create_namespace_call auth nsid with
  | .error e => (errorResponse e, [])
  | .ok args =>
    match mcreate args with
    | .error e => (errorResponse e, [args])
    | .ok _ => ({ status := 204, body := .empty }, [args])

/-- HTTP methods routed for the namespace resource. -/
inductive Method where
  | get
  | put
  | post
  | delete
deriving DecidableEq, Repr

/-- Modelled from the spec: route dispatch for /api/v1/namespace/{id}.
GET reads, PUT and POST both create, anything else is the framework's
405 response.  The second component records the argument tuples passed
to IDMapper.create_namespace. -/
def namespace_route
    (mget : String → Option (String × String) → Except ServiceError NamespaceData)
    (mcreate : String × String × String → Except ServiceError Unit)
    (m : Method) (auth : Option String) (nsid : String) :
    Response × List (String × String × String) :=
  match m with
  | .get => (get_namespace_handler mget auth nsid, [])
  | .put => create_namespace_handler mcreate auth nsid
  | .post => create_namespace_handler mcreate auth nsid
  | .delete =>
    ({ status := 405
       body := .error
         { httpcode := 405
           httpstatus := "Method Not Allowed"
           appcode := none
           apperror := none
           message := "405 Method Not Allowed: The method is not allowed for the requested URL." } },
     [])

/-! Helper lemmas about the `util.py` embedding. -/

instance {ε α : Type} [DecidableEq ε] [DecidableEq α] :
    DecidableEq (Except ε α) := fun x y =>
  match x, y with
  | .ok a, .ok b =>
    if h : a = b then .isTrue (congrArg Except.ok h)
    else .isFalse (fun hc => h (Except.ok.inj hc))
  | .error e, .error f =>
    if h : e = f then .isTrue (congrArg Except.error h)
    else .isFalse (fun hc => h (Except.error.inj hc))
  | .ok _, .error _ => .isFalse (fun hc => Except.noConfusion hc)
  | .error _, .ok _ => .isFalse (fun hc => Except.noConfusion hc)

/-- A blank input (absent, empty, or whitespace-only) makes
`check_string` fail with the missing-parameter error, before any other
check runs. -/
theorem check_string_blank (str : Option String) (nm : String)
    (lc : Option String) (ml : Option Int)
    (h : pyStrip (str.getD "") = "") :
    check_string str nm lc ml = .error (.missingParameter nm) := by
  cases str with
  | none => rfl
  | some s =>
    by_cases hs : s = ""
    · subst hs; rfl
    · simp [check_string, not_none, hs]
      intro hb
      exact absurd h hb

/-- On a non-blank string with no `max_len`, `check_string` reduces to
the legal-characters check. -/
theorem check_string_step_none (s nm : String) (lc : Option String)
    (hb : pyStrip s ≠ "") :
    check_string (some s) nm lc none = checkLegal s nm lc := by
  have hs : s ≠ "" := fun h => hb (by rw [h]; rfl)
  simp [check_string, not_none, hs, hb]

/-- On a non-blank string with a `max_len`, `check_string` reduces to
the truthiness-guarded max-length check followed by the
legal-characters check. -/
theorem check_string_step_some (s nm : String) (lc : Option String) (m : Int)
    (hb : pyStrip s ≠ "") :
    check_string (some s) nm lc (some m) =
      if m ≠ 0 ∧ (s.length : Int) > m then
        .error (.illegalParameter
          (nm ++ " " ++ s ++ " exceeds maximum length of " ++ toString m))
      else checkLegal s nm lc := by
  have hs : s ≠ "" := fun h => hb (by rw [h]; rfl)
  simp [check_string, not_none, hs, hb]

/-- A passing truthiness-guarded length check refutes the raise
condition of the max-length branch. -/
theorem lengthOKB_not_exceeds {m : Int} {s : String}
    (h : lengthOKB (some m) s = true) :
    ¬(m ≠ 0 ∧ (s.length : Int) > m) := by
  simp only [lengthOKB, Bool.or_eq_true, decide_eq_true_eq] at h
  rcases h with h0 | hle
  · intro hc
    exact hc.1 h0
  · intro hc
    omega

/-- The legal-characters phase succeeds when every character is legal
(or the class is absent or falsy). -/
theorem checkLegal_ok (s nm : String) (lc : Option String)
    (h : onlyLegal lc s = true) : checkLegal s nm lc = .ok () := by
  unfold checkLegal
  cases lc with
  | none => rfl
  | some l =>
    by_cases hl : l = ""
    · simp [hl]
    · simp only [if_neg hl]
      have hall : ∀ x ∈ s.toList, charClassMatch l.toList x = true := by
        simp only [onlyLegal, Bool.or_eq_true, decide_eq_true_eq, List.all_eq_true] at h
        rcases h with h0 | hA
        · exact absurd h0 hl
        · exact hA
      have hnone : s.toList.find? (fun c => ! charClassMatch l.toList c) = none := by
        apply List.find?_eq_none.mpr
        intro x hx hcontra
        change (! charClassMatch l.toList x) = true at hcontra
        rw [hall x hx] at hcontra
        simp at hcontra
      rw [hnone]

/-- The legal-characters phase either succeeds or fails citing some
offending character. -/
theorem checkLegal_cases (s nm : String) (lc : Option String) :
    checkLegal s nm lc = .ok () ∨
      ∃ c, checkLegal s nm lc =
        .error (.illegalParameter
          ("Illegal character in " ++ nm ++ " " ++ s ++ ": " ++ String.mk [c])) := by
  unfold checkLegal
  cases lc with
  | none => exact Or.inl rfl
  | some l =>
    by_cases hl : l = ""
    · simp [hl]
    · simp only [if_neg hl]
      split
      · exact Or.inr ⟨_, rfl⟩
      · exact Or.inl rfl

/-- The max-length error message and a character-citation error message
are never equal (their lengths differ). -/
theorem lenMsg_ne_charMsg (nm s : String) (m : Int) (c : Char) :
    nm ++ " " ++ s ++ " exceeds maximum length of " ++ toString m ≠
      "Illegal character in " ++ nm ++ " " ++ s ++ ": " ++ String.mk [c] := by
  intro h
  have hl := congrArg String.length h
  simp only [String.length_append] at hl
  have h1 : (" ").length = 1 := rfl
  have h2 : (" exceeds maximum length of ").length = 27 := rfl
  have h3 : ("Illegal character in ").length = 21 := rfl
  have h4 : (": ").length = 2 := rfl
  have h5 : (String.mk [c]).length = 1 := rfl
  rw [h1, h2, h3, h4, h5] at hl
  omega

/-- In a list split as `l1 ++ c :: l2` where nothing in `l1` satisfies
the predicate and `c` does, the search finds `c`. -/
theorem find_first {p : Char → Bool} (l1 l2 : List Char) (c : Char)
    (h1 : ∀ x ∈ l1, p x = false) (h2 : p c = true) :
    (l1 ++ c :: l2).find? p = some c := by
  induction l1 with
  | nil =>
    simp only [List.nil_append]
    exact List.find?_cons_of_pos _ h2
  | cons y ys ih =>
    have hy : p y = false := h1 y (by simp)
    rw [List.cons_append, List.find?_cons_of_neg _ (by simp [hy])]
    exact ih (fun x hx => h1 x (by simp [hx]))

/-! Claim theorems for the validation utilities. -/

/-- C6: the claim (and `not_none`'s own docstring) says `not_none`
fails on absent, empty, and whitespace-only values.  The code only
tests Python truthiness, so a whitespace-only string — which the
embedded `pyStrip` confirms is blank — passes `not_none`; the
whitespace rejection happens only later, in `check_string`. -/
theorem C6_not_none_whitespace :
    not_none none "obj" = .error (.missingParameter "obj")
    ∧ not_none (some "") "obj" = .error (.missingParameter "obj")
    ∧ not_none (some " ") "obj" = .ok ()
    ∧ pyStrip " " = ""
    ∧ check_string (some " ") "obj" none none = .error (.missingParameter "obj") := by
  refine ⟨rfl, rfl, rfl, rfl, rfl⟩

/-- C3 counterexample: as stated the claim fails.  A whitespace-only
string exceeding the limit raises the missing-parameter error, not the
illegal-parameter one; and with `max_len = 0` (falsy, hence "given" but
disabled) an over-length string succeeds. -/
theorem C3_counterexample :
    check_string (some "  ") "n" none (some 1) = .error (.missingParameter "n")
    ∧ (∀ msg, check_string (some "  ") "n" none (some 1) ≠
        .error (.illegalParameter msg))
    ∧ check_string (some "abc") "n" none (some 0) = .ok () := by
  have h0 : check_string (some "  ") "n" none (some 1) =
      .error (.missingParameter "n") := by decide
  refine ⟨h0, ?_, by decide⟩
  intro msg h
  rw [h0] at h
  simp at h

/-- C3 (amended): on a non-blank string, `check_string` applies the
max-length check before the legal-character check; a non-blank string
exceeding a truthy (nonzero) `max_len` fails with the illegal-parameter
error naming the value and the limit; a non-blank string passing the
length guard whose characters are all legal succeeds; and any blank
input fails the presence check first, with a missing-parameter error. -/
theorem C3_check_string_order (s nm : String) (lc : Option String) (m : Int)
    (hblank : pyStrip s ≠ "") :
    (m ≠ 0 → (s.length : Int) > m →
      check_string (some s) nm lc (some m) =
        .error (.illegalParameter
          (nm ++ " " ++ s ++ " exceeds maximum length of " ++ toString m)))
    ∧ (∀ ml, lengthOKB ml s = true → onlyLegal lc s = true →
        check_string (some s) nm lc ml = .ok ())
    ∧ (∀ str nm2 lc2 ml2, pyStrip (str.getD "") = "" →
        check_string str nm2 lc2 ml2 = .error (.missingParameter nm2)) := by
  refine ⟨?_, ?_, ?_⟩
  · intro hm hgt
    rw [check_string_step_some s nm lc m hblank]
    exact if_pos ⟨hm, hgt⟩
  · intro ml hlen hleg
    cases ml with
    | none =>
      rw [check_string_step_none s nm lc hblank]
      exact checkLegal_ok s nm lc hleg
    | some m2 =>
      rw [check_string_step_some s nm lc m2 hblank,
        if_neg (lengthOKB_not_exceeds hlen)]
      exact checkLegal_ok s nm lc hleg
  · intro str nm2 lc2 ml2 h
    exact check_string_blank str nm2 lc2 ml2 h

/-- C3 witness: the amended claim instantiated at a concrete call. -/
theorem C3_witness :
    pyStrip "abcd" ≠ ""
    ∧ (((3 : Int) ≠ 0 → (("abcd".length : Nat) : Int) > 3 →
        check_string (some "abcd") "n" (some "a-z") (some 3) =
          .error (.illegalParameter
            ("n" ++ " " ++ "abcd" ++ " exceeds maximum length of " ++ toString (3 : Int))))
      ∧ (∀ ml, lengthOKB ml "abcd" = true → onlyLegal (some "a-z") "abcd" = true →
          check_string (some "abcd") "n" (some "a-z") ml = .ok ())
      ∧ (∀ str nm2 lc2 ml2, pyStrip (str.getD "") = "" →
          check_string str nm2 lc2 ml2 = .error (.missingParameter nm2))) :=
  ⟨by decide, C3_check_string_order "abcd" "n" (some "a-z") 3 (by decide)⟩

/-- C7 counterexample: as stated the claim fails.  A whitespace-only
string has a character outside the class yet raises the
missing-parameter error, and an over-length string with an illegal
character raises the max-length message, not the character citation. -/
theorem C7_counterexample :
    check_string (some " ") "n" (some "a-z") none = .error (.missingParameter "n")
    ∧ (∀ msg, check_string (some " ") "n" (some "a-z") none ≠
        .error (.illegalParameter msg))
    ∧ check_string (some "abcd!") "n" (some "a-z") (some 4) =
        .error (.illegalParameter "n abcd! exceeds maximum length of 4")
    ∧ check_string (some "abcd!") "n" (some "a-z") (some 4) ≠
        .error (.illegalParameter "Illegal character in n abcd!: !") := by
  have h0 : check_string (some " ") "n" (some "a-z") none =
      .error (.missingParameter "n") := by decide
  refine ⟨h0, ?_, by decide, by decide⟩
  intro msg h
  rw [h0] at h
  simp at h

/-- C7 (amended): on a non-blank string that passes the length guard,
when a truthy legal-character class is given and the string splits as
legal prefix, offending character, rest, `check_string` fails with the
illegal-parameter error citing that first offending character. -/
theorem C7_first_illegal_char (s nm lc : String) (l1 l2 : List Char) (c : Char)
    (ml : Option Int)
    (hlc : lc ≠ "") (hblank : pyStrip s ≠ "") (hlen : lengthOKB ml s = true)
    (hsplit : s.toList = l1 ++ c :: l2)
    (hleg : ∀ x ∈ l1, charClassMatch lc.toList x = true)
    (hbad : charClassMatch lc.toList c = false) :
    check_string (some s) nm (some lc) ml =
      .error (.illegalParameter
        ("Illegal character in " ++ nm ++ " " ++ s ++ ": " ++ String.mk [c])) := by
  have hfind : s.toList.find? (fun x => ! charClassMatch lc.toList x) = some c := by
    rw [hsplit]
    exact find_first l1 l2 c
      (fun x hx => by
        change (! charClassMatch lc.toList x) = false
        rw [hleg x hx]
        rfl)
      (by
        change (! charClassMatch lc.toList c) = true
        rw [hbad]
        rfl)
  have hcl : checkLegal s nm (some lc) =
      .error (.illegalParameter
        ("Illegal character in " ++ nm ++ " " ++ s ++ ": " ++ String.mk [c])) := by
    simp only [checkLegal, if_neg hlc, hfind]
  cases ml with
  | none =>
    rw [check_string_step_none s nm (some lc) hblank]
    exact hcl
  | some m =>
    rw [check_string_step_some s nm (some lc) m hblank,
      if_neg (lengthOKB_not_exceeds hlen)]
    exact hcl

/-- C7 witness: validating namespace id "foo&bar" against the
namespace-id character class fails citing the ampersand, reproducing
the observed service error message. -/
theorem C7_witness :
    (("a-zA-Z0-9_" : String) ≠ "" ∧ pyStrip "foo&bar" ≠ ""
      ∧ "foo&bar".toList = ['f', 'o', 'o'] ++ '&' :: ['b', 'a', 'r'])
    ∧ check_string (some "foo&bar") "namespace id" (some "a-zA-Z0-9_") none =
        .error (.illegalParameter "Illegal character in namespace id foo&bar: &") := by
  refine ⟨⟨by decide, by decide, by decide⟩, ?_⟩
  have h := C7_first_illegal_char "foo&bar" "namespace id" "a-zA-Z0-9_"
    ['f', 'o', 'o'] ['b', 'a', 'r'] '&' none
    (by decide) (by decide) (by decide) (by decide)
    (by decide) (by decide)
  exact h.trans (by decide)

/-- C10 counterexample: as stated the claim fails.  With a truthy
`max_len` of 1 and the whitespace-only string of length 3, no
max-length illegal-parameter error is raised; the presence check fails
first with a missing-parameter error. -/
theorem C10_counterexample :
    check_string (some "   ") "n" none (some 1) = .error (.missingParameter "n")
    ∧ (∀ msg, check_string (some "   ") "n" none (some 1) ≠
        .error (.illegalParameter msg)) := by
  have h0 : check_string (some "   ") "n" none (some 1) =
      .error (.missingParameter "n") := by decide
  refine ⟨h0, ?_⟩
  intro msg h
  rw [h0] at h
  simp at h

/-- C10 (amended): on a non-blank string, `check_string` raises the
max-length illegal-parameter error if and only if `max_len` is truthy
(nonzero) and the string's length strictly exceeds it; and passing
`max_len = 0` behaves exactly like passing no `max_len` at all, on
every input. -/
theorem C10_max_len_truthiness (s nm : String) (lc : Option String) (m : Int)
    (hblank : pyStrip s ≠ "") :
    (check_string (some s) nm lc (some m) =
        .error (.illegalParameter
          (nm ++ " " ++ s ++ " exceeds maximum length of " ++ toString m))
      ↔ m ≠ 0 ∧ (s.length : Int) > m)
    ∧ (∀ str nm2 lc2, check_string str nm2 lc2 (some 0) =
        check_string str nm2 lc2 none) := by
  constructor
  · constructor
    · intro h
      rw [check_string_step_some s nm lc m hblank] at h
      by_cases hcond : m ≠ 0 ∧ (s.length : Int) > m
      · exact hcond
      · rw [if_neg hcond] at h
        rcases checkLegal_cases s nm lc with hok | ⟨c, hc⟩
        · rw [hok] at h
          simp at h
        · rw [hc] at h
          have hmsg := h
          simp only [Except.error.injEq, UtilError.illegalParameter.injEq] at hmsg
          exact absurd hmsg.symm (lenMsg_ne_charMsg nm s m c)
    · intro hcond
      rw [check_string_step_some s nm lc m hblank]
      exact if_pos hcond
  · intro str nm2 lc2
    cases str with
    | none => rfl
    | some s2 =>
      by_cases hb : pyStrip s2 = ""
      · rw [check_string_blank (some s2) nm2 lc2 (some 0) hb,
            check_string_blank (some s2) nm2 lc2 none hb]
      · rw [check_string_step_some s2 nm2 lc2 0 hb,
            check_string_step_none s2 nm2 lc2 hb]
        simp

/-- C10 witness: the amended claim instantiated, with the error raised
at length 7 over limit 3 and absent for falsy limit 0. -/
theorem C10_witness :
    pyStrip "toolong" ≠ ""
    ∧ ((check_string (some "toolong") "n" none (some 3) =
          .error (.illegalParameter
            ("n" ++ " " ++ "toolong" ++ " exceeds maximum length of " ++ toString (3 : Int)))
        ↔ (3 : Int) ≠ 0 ∧ (("toolong".length : Nat) : Int) > 3)
      ∧ (∀ str nm2 lc2, check_string str nm2 lc2 (some 0) =
          check_string str nm2 lc2 none)) :=
  ⟨by decide, C10_max_len_truthiness "toolong" "n" none 3 (by decide)⟩

/-! Helper lemmas about sorting and the service model. -/

/-- Inserting into a list is a permutation of consing. -/
theorem insertSorted_perm {α : Type} (le : α → α → Bool) (x : α) (l : List α) :
    (insertSorted le x l).Perm (x :: l) := by
  induction l with
  | nil => exact List.Perm.refl _
  | cons y ys ih =>
    by_cases h : le x y = true
    · simp [insertSorted, h]
    · simp only [insertSorted, if_neg h]
      exact (ih.cons y).trans (List.Perm.swap x y ys)

/-- Insertion sort permutes its input. -/
theorem sortBy_perm {α : Type} (le : α → α → Bool) (l : List α) :
    (sortBy le l).Perm l := by
  induction l with
  | nil => exact List.Perm.refl _
  | cons x xs ih => exact (insertSorted_perm le x (sortBy le xs)).trans (ih.cons x)

/-- Inserting into a sorted list keeps it sorted, for a total,
transitive comparison. -/
theorem insertSorted_pairwise {α : Type} (le : α → α → Bool)
    (htot : ∀ a b, le a b = true ∨ le b a = true)
    (htrans : ∀ a b c, le a b = true → le b c = true → le a c = true)
    (x : α) (l : List α)
    (hl : l.Pairwise (fun a b => le a b = true)) :
    (insertSorted le x l).Pairwise (fun a b => le a b = true) := by
  induction l with
  | nil => simp [insertSorted]
  | cons y ys ih =>
    rcases List.pairwise_cons.mp hl with ⟨hy, hys⟩
    by_cases h : le x y = true
    · simp only [insertSorted, if_pos h]
      refine List.pairwise_cons.mpr ⟨?_, hl⟩
      intro z hz
      rcases List.mem_cons.mp hz with hzy | hz2
      · rw [hzy]
        exact h
      · exact htrans x y z h (hy z hz2)
    · simp only [insertSorted, if_neg h]
      refine List.pairwise_cons.mpr ⟨?_, ih hys⟩
      intro z hz
      have hz2 : z ∈ x :: ys := (insertSorted_perm le x ys).mem_iff.mp hz
      rcases List.mem_cons.mp hz2 with hzx | hz3
      · rcases htot x y with hxy | hyx
        · exact absurd hxy h
        · rw [hzx]
          exact hyx
      · exact hy z hz3

/-- Insertion sort sorts, for a total, transitive comparison. -/
theorem sortBy_pairwise {α : Type} (le : α → α → Bool)
    (htot : ∀ a b, le a b = true ∨ le b a = true)
    (htrans : ∀ a b c, le a b = true → le b c = true → le a c = true)
    (l : List α) :
    (sortBy le l).Pairwise (fun a b => le a b = true) := by
  induction l with
  | nil => simp [sortBy]
  | cons x xs ih => exact insertSorted_pairwise le htot htrans x (sortBy le xs) ih

/-- Lexicographic list comparison is transitive. -/
theorem listCharLt_trans : ∀ as bs cs : List Char,
    listCharLt as bs = true → listCharLt bs cs = true →
    listCharLt as cs = true := by
  intro as
  induction as with
  | nil =>
    intro bs cs h1 h2
    cases bs with
    | nil => simp [listCharLt] at h1
    | cons b bs2 =>
      cases cs with
      | nil => simp [listCharLt] at h2
      | cons c cs2 => simp [listCharLt]
  | cons a as ih =>
    intro bs cs h1 h2
    cases bs with
    | nil => simp [listCharLt] at h1
    | cons b bs2 =>
      cases cs with
      | nil => simp [listCharLt] at h2
      | cons c cs2 =>
        simp only [listCharLt, Bool.or_eq_true, Bool.and_eq_true,
          decide_eq_true_eq] at h1 h2 ⊢
        rcases h1 with h1 | ⟨hab, h1⟩
        · rcases h2 with h2 | ⟨hbc, h2⟩
          · exact Or.inl (h1.trans h2)
          · exact Or.inl (lt_of_lt_of_eq h1 hbc)
        · rcases h2 with h2 | ⟨hbc, h2⟩
          · exact Or.inl (lt_of_eq_of_lt hab h2)
          · exact Or.inr ⟨hab.trans hbc, ih bs2 cs2 h1 h2⟩

/-- Lexicographic list comparison is trichotomous. -/
theorem listCharLt_total : ∀ as bs : List Char,
    listCharLt as bs = true ∨ listCharLt bs as = true ∨ as = bs := by
  intro as
  induction as with
  | nil =>
    intro bs
    cases bs with
    | nil => exact Or.inr (Or.inr rfl)
    | cons b bs2 => exact Or.inl (by simp [listCharLt])
  | cons a as ih =>
    intro bs
    cases bs with
    | nil => exact Or.inr (Or.inl (by simp [listCharLt]))
    | cons b bs2 =>
      rcases lt_trichotomy a b with hab | hab | hab
      · exact Or.inl (by simp [listCharLt, hab])
      · rcases ih bs2 with h | h | h
        · exact Or.inl (by simp [listCharLt, hab, h])
        · exact Or.inr (Or.inl (by simp [listCharLt, hab, h]))
        · exact Or.inr (Or.inr (by rw [hab, h]))
      · exact Or.inr (Or.inl (by simp [listCharLt, hab]))

/-- String less-than is transitive. -/
theorem strLt_trans {a b c : String} (h1 : strLt a b = true)
    (h2 : strLt b c = true) : strLt a c = true :=
  listCharLt_trans a.toList b.toList c.toList h1 h2

/-- String less-than is trichotomous. -/
theorem strLt_total (a b : String) :
    strLt a b = true ∨ strLt b a = true ∨ a = b := by
  rcases listCharLt_total a.toList b.toList with h | h | h
  · exact Or.inl h
  · exact Or.inr (Or.inl h)
  · exact Or.inr (Or.inr (congrArg String.mk h))

/-- The User ordering (authsource then username) is total. -/
theorem userLeB_total (u v : String × String) :
    userLeB u v = true ∨ userLeB v u = true := by
  simp only [userLeB, Bool.or_eq_true, Bool.and_eq_true, decide_eq_true_eq]
  rcases strLt_total u.1 v.1 with h | h | h
  · exact Or.inl (Or.inl h)
  · exact Or.inr (Or.inl h)
  · rcases strLt_total u.2 v.2 with h2 | h2 | h2
    · exact Or.inl (Or.inr ⟨h, Or.inl h2⟩)
    · exact Or.inr (Or.inr ⟨h.symm, Or.inl h2⟩)
    · exact Or.inl (Or.inr ⟨h, Or.inr h2⟩)

/-- The User ordering (authsource then username) is transitive. -/
theorem userLeB_trans (u v w : String × String)
    (h1 : userLeB u v = true) (h2 : userLeB v w = true) :
    userLeB u w = true := by
  simp only [userLeB, Bool.or_eq_true, Bool.and_eq_true, decide_eq_true_eq] at h1 h2 ⊢
  rcases h1 with h1 | ⟨he1, hs1⟩
  · rcases h2 with h2 | ⟨he2, hs2⟩
    · exact Or.inl (strLt_trans h1 h2)
    · exact Or.inl (by rw [← he2]; exact h1)
  · rcases h2 with h2 | ⟨he2, hs2⟩
    · exact Or.inl (by rw [he1]; exact h2)
    · refine Or.inr ⟨he1.trans he2, ?_⟩
      rcases hs1 with hl1 | hs1
      · rcases hs2 with hl2 | hs2
        · exact Or.inl (strLt_trans hl1 hl2)
        · exact Or.inl (by rw [← hs2]; exact hl1)
      · rcases hs2 with hl2 | hs2
        · exact Or.inl (by rw [hs1]; exact hl2)
        · exact Or.inr (hs1.trans hs2)

/-- Any header that does not split into exactly two
whitespace-separated tokens makes the credential parser fail with the
fixed illegal-parameter error, whether or not a credential is
required. -/
theorem parse_credential_munged (required : Bool) (h : String)
    (hsplit : (pySplit h).length ≠ 2) :
    parse_credential required (some h) =
      .error (.classified .illegalParameter
        (some "Expected authsource and token in header.")) := by
  simp only [parse_credential]
  cases hps : pySplit h with
  | nil => rfl
  | cons a rest =>
    cases rest with
    | nil => rfl
    | cons t rest2 =>
      cases rest2 with
      | nil => exact absurd (by rw [hps]; rfl) hsplit
      | cons c rest3 => rfl

/-! Claim theorems for the service layer. -/

/-- C1: for each classified error kind raised during request handling
(illegal parameter, invalid token, unauthorized, no such namespace),
the translator produces the fixed application code and HTTP status
(30001/400, 10020/401, 20000/403, 50010/404) and a message equal to
the appcode and apperror joined by a space, optionally followed by a
colon, a space and the detail. -/
theorem C1_translator_contract (d : Option String) :
    translate (.classified .illegalParameter d) =
      { httpcode := 400, httpstatus := "Bad Request", appcode := some 30001
        apperror := some "Illegal input parameter"
        message := "30001 Illegal input parameter" ++ optDetail d }
    ∧ translate (.classified .invalidToken d) =
      { httpcode := 401, httpstatus := "Unauthorized", appcode := some 10020
        apperror := some "Invalid token"
        message := "10020 Invalid token" ++ optDetail d }
    ∧ translate (.classified .unauthorized d) =
      { httpcode := 403, httpstatus := "Forbidden", appcode := some 20000
        apperror := some "Unauthorized"
        message := "20000 Unauthorized" ++ optDetail d }
    ∧ translate (.classified .noSuchNamespace d) =
      { httpcode := 404, httpstatus := "Not Found", appcode := some 50010
        apperror := some "No such namespace"
        message := "50010 No such namespace" ++ optDetail d } := by
  exact ⟨rfl, rfl, rfl, rfl⟩

/-- C2: any present authorization header that does not split into
exactly two whitespace-separated tokens yields the fixed
illegal-parameter response (appcode 30001, HTTP 400, detail "Expected
authsource and token in header.") for both the read and the create
operation, whatever the mapper does. -/
theorem C2_munged_auth_header (h nsid : String)
    (mget : String → Option (String × String) → Except ServiceError NamespaceData)
    (mcreate : String × String × String → Except ServiceError Unit)
    (hsplit : (pySplit h).length ≠ 2) :
    get_namespace_handler mget (some h) nsid =
      { status := 400
        body := .error
          { httpcode := 400, httpstatus := "Bad Request", appcode := some 30001
            apperror := some "Illegal input parameter"
            message := "30001 Illegal input parameter: Expected authsource and token in header." } }
    ∧ create_namespace_handler mcreate (some h) nsid =
      ({ status := 400
         body := .error
           { httpcode := 400, httpstatus := "Bad Request", appcode := some 30001
             apperror := some "Illegal input parameter"
             message := "30001 Illegal input parameter: Expected authsource and token in header." } },
       []) := by
  constructor
  · simp only [get_namespace_handler, parse_credential_munged false h hsplit]
    rfl
  · simp only [create_namespace_handler, create_namespace_call,
      parse_credential_munged true h hsplit]
    rfl

/-- C2 witness: the observed test input "astoketoketoke" (no separating
whitespace) produces the 30001/400 response on both operations. -/
theorem C2_witness :
    (pySplit "astoketoketoke").length ≠ 2
    ∧ (get_namespace_handler (fun _ _ => .error (.unclassified "x"))
          (some "astoketoketoke") "foo" =
        { status := 400
          body := .error
            { httpcode := 400, httpstatus := "Bad Request", appcode := some 30001
              apperror := some "Illegal input parameter"
              message := "30001 Illegal input parameter: Expected authsource and token in header." } }
      ∧ create_namespace_handler (fun _ => .ok ()) (some "astoketoketoke") "foo" =
        ({ status := 400
           body := .error
             { httpcode := 400, httpstatus := "Bad Request", appcode := some 30001
               apperror := some "Illegal input parameter"
               message := "30001 Illegal input parameter: Expected authsource and token in header." } },
         [])) :=
  ⟨by decide,
    C2_munged_auth_header "astoketoketoke" "foo"
      (fun _ _ => .error (.unclassified "x")) (fun _ => .ok ()) (by decide)⟩

/-- C4: a createNamespace request with no authorization header at all
fails with the no-authentication-token kind, rendered 10010/401, and
that rendering differs from the malformed-header illegal-parameter
rendering (30001/400). -/
theorem C4_create_no_token
    (mcreate : String × String × String → Except ServiceError Unit)
    (nsid : String) :
    create_namespace_handler mcreate none nsid =
      ({ status := 401
         body := .error
           { httpcode := 401, httpstatus := "Unauthorized", appcode := some 10010
             apperror := some "No authentication token"
             message := "10010 No authentication token" } },
       [])
    ∧ translate (.classified .noAuthToken none) ≠
        translate (.classified .illegalParameter
          (some "Expected authsource and token in header.")) := by
  exact ⟨rfl, by decide⟩

/-- C5: an unclassified fault translates to HTTP 500 with no appcode
and no apperror and with the fault's own message verbatim, and a read
request whose mapper raises such a fault returns exactly that
payload. -/
theorem C5_unclassified_fault (msg nsid : String)
    (hns : checkNamespaceID nsid = .ok ()) :
    translate (.unclassified msg) =
      { httpcode := 500, httpstatus := "Internal Server Error"
        appcode := none, apperror := none, message := msg }
    ∧ get_namespace_handler (fun _ _ => .error (.unclassified msg)) none nsid =
      { status := 500
        body := .error
          { httpcode := 500, httpstatus := "Internal Server Error"
            appcode := none, apperror := none, message := msg } } := by
  refine ⟨rfl, ?_⟩
  have hp : parse_credential false none =
      (.ok none : Except ServiceError (Option (String × String))) := rfl
  simp only [get_namespace_handler, hp, hns, liftE, errorResponse, translate]

/-- C5 witness: the observed test fault message surfaces verbatim. -/
theorem C5_witness :
    checkNamespaceID "foo" = .ok ()
    ∧ (translate (.unclassified "things are all messed up down here") =
        { httpcode := 500, httpstatus := "Internal Server Error"
          appcode := none, apperror := none
          message := "things are all messed up down here" }
      ∧ get_namespace_handler
          (fun _ _ => .error (.unclassified "things are all messed up down here"))
          none "foo" =
        { status := 500
          body := .error
            { httpcode := 500, httpstatus := "Internal Server Error"
              appcode := none, apperror := none
              message := "things are all messed up down here" } }) :=
  ⟨by decide, C5_unclassified_fault "things are all messed up down here" "foo" (by decide)⟩

/-- C8: a successful getNamespace responds 200 with the namespace id,
the public-mappability flag, and the member set sorted by the User
ordering (authsource then username) and rendered as
authsource-slash-username strings; an empty member set renders as the
empty list. -/
theorem C8_get_namespace_success
    (mget : String → Option (String × String) → Except ServiceError NamespaceData)
    (auth : Option String) (nsid : String) (cred : Option (String × String))
    (ns : NamespaceData)
    (hauth : parse_credential false auth = .ok cred)
    (hns : checkNamespaceID nsid = .ok ())
    (hmget : mget nsid cred = .ok ns) :
    get_namespace_handler mget auth nsid =
      { status := 200
        body := .nsJson ns.id ns.publicly_mappable (renderUsers ns.users) }
    ∧ (sortBy userLeB ns.users).Perm ns.users
    ∧ (sortBy userLeB ns.users).Pairwise (fun u v => userLeB u v = true)
    ∧ renderUsers ns.users = (sortBy userLeB ns.users).map renderUser
    ∧ (ns.users = [] → renderUsers ns.users = []) := by
  refine ⟨?_, sortBy_perm userLeB ns.users,
    sortBy_pairwise userLeB userLeB_total userLeB_trans ns.users, rfl, ?_⟩
  · simp only [get_namespace_handler, hauth, hns, liftE, hmget]
  · intro h
    rw [h]
    rfl

/-- C8 witness: the observed test namespace with members bar/baz and
bag/bat renders its users sorted as bag/bat then bar/baz. -/
theorem C8_witness :
    (parse_credential false (some "as toketoketoke") = .ok (some ("as", "toketoketoke"))
      ∧ checkNamespaceID "foo" = .ok ())
    ∧ get_namespace_handler
        (fun _ _ => .ok ⟨"foo", true, [("bar", "baz"), ("bag", "bat")]⟩)
        (some "as toketoketoke") "foo" =
      { status := 200, body := .nsJson "foo" true ["bag/bat", "bar/baz"] } := by
  refine ⟨⟨by decide, by decide⟩, ?_⟩
  have h := C8_get_namespace_success
    (fun _ _ => .ok ⟨"foo", true, [("bar", "baz"), ("bag", "bat")]⟩)
    (some "as toketoketoke") "foo" (some ("as", "toketoketoke"))
    ⟨"foo", true, [("bar", "baz"), ("bag", "bat")]⟩
    (by decide) (by decide) rfl
  exact h.1.trans (by decide)

/-- C9: for a header and namespace id from which the create-call tuple
is built successfully, PUT and POST dispatch identically: the same
handler runs, IDMapper.create_namespace is invoked with the same
(authsource, token, namespace id) tuple, and when the mapper succeeds
both respond 204 with an empty body. -/
theorem C9_put_post_equivalent
    (mget : String → Option (String × String) → Except ServiceError NamespaceData)
    (mcreate : String × String × String → Except ServiceError Unit)
    (auth : Option String) (nsid : String) (args : String × String × String)
    (hargs : create_namespace_call auth nsid = .ok args)
    (hok : mcreate args = .ok ()) :
    namespace_route mget mcreate .put auth nsid =
      namespace_route mget mcreate .post auth nsid
    ∧ namespace_route mget mcreate .put auth nsid =
      ({ status := 204, body := .empty }, [args]) := by
  refine ⟨rfl, ?_⟩
  simp only [namespace_route, create_namespace_handler, hargs, hok]

/-- C9 witness: the observed test credential "source tokey" and id
"foo" give the tuple (source, tokey, foo) and the 204 empty response
on both methods. -/
theorem C9_witness :
    create_namespace_call (some "source tokey") "foo" = .ok ("source", "tokey", "foo")
    ∧ (namespace_route (fun _ _ => .error (.unclassified "x")) (fun _ => .ok ())
          .put (some "source tokey") "foo" =
        namespace_route (fun _ _ => .error (.unclassified "x")) (fun _ => .ok ())
          .post (some "source tokey") "foo"
      ∧ namespace_route (fun _ _ => .error (.unclassified "x")) (fun _ => .ok ())
          .put (some "source tokey") "foo" =
        ({ status := 204, body := .empty }, [("source", "tokey", "foo")])) :=
  ⟨by decide,
    C9_put_post_equivalent (fun _ _ => .error (.unclassified "x")) (fun _ => .ok ())
      (some "source tokey") "foo" ("source", "tokey", "foo") (by decide) rfl⟩

end IDMapping
